import Mathlib

/-!
Shallow embedding of `crates/base/src/deno_runtime.rs` (edge-runtime):
the worker runtime supervisor.  `DenoRuntime.new` assembles an isolate
(bundle selection, TLS root-cert store, V8 create params, bootstrap script,
op-state injection, main-module load) and `DenoRuntime.run` drives the
module evaluation future against a wall-clock timeout.

Machine integers of the source are modelled as `Nat`; fallible Rust calls
return `Except`; a Rust panic (`unwrap` / `expect`) is modelled by the
distinguished `NewOutcome.fatal` constructor.  External calls (bundling,
platform certificates, executing the bootstrap script, loading the main
module) are parametrised by a `Host` record carrying their results.
-/

/-- User-worker options (`sb_workers::context::UserWorkerRuntimeOpts`).
Modelled from the spec: the struct lives in the `sb_workers` crate, which is
not part of the sources here; fields are taken from the spec's `User` role
variant and from the uses in `deno_runtime.rs` and its tests.  `key` is the
opaque execution id (a UUID in the source), modelled as a `String`. -/
structure UserWorkerRuntimeOpts where
  memory_limit_mb : Nat
  worker_timeout_ms : Nat
  cpu_time_soft_limit_ms : Nat
  cpu_time_hard_limit_ms : Nat
  low_memory_multiplier : Nat
  force_create : Bool
  net_access_disabled : Bool
  allow_remote_modules : Bool
  custom_module_root : Option String
  key : Option String
  pool_msg_tx : Option Nat
  events_msg_tx : Option Nat
  service_path : Option String
deriving DecidableEq, Repr

/-- Main-worker options (`sb_workers::context::MainWorkerRuntimeOpts`).
Modelled from the spec: the pool-dispatch sender handle, modelled as an
opaque numeric id. -/
structure MainWorkerRuntimeOpts where
  worker_pool_tx : Nat
deriving DecidableEq, Repr

/-- `sb_workers::context::WorkerRuntimeOpts`: the role tag of a worker.
Modelled from the spec: the enum lives in the `sb_workers` crate; the
`Event` variant carries no field used by `deno_runtime.rs` (the event
receiver travels in `WorkerContextInitOpts.events_rx`). -/
inductive WorkerRuntimeOpts where
  | UserWorker (o : UserWorkerRuntimeOpts)
  | MainWorker (o : MainWorkerRuntimeOpts)
  | EventsWorker
deriving DecidableEq, Repr

/-- `conf.is_user_worker()` -/
def WorkerRuntimeOpts.is_user_worker : WorkerRuntimeOpts → Bool
  | .UserWorker _ => true
  | _ => false

/-- `conf.is_main_worker()` -/
def WorkerRuntimeOpts.is_main_worker : WorkerRuntimeOpts → Bool
  | .MainWorker _ => true
  | _ => false

/-- `conf.is_events_worker()` -/
def WorkerRuntimeOpts.is_events_worker : WorkerRuntimeOpts → Bool
  | .EventsWorker => true
  | _ => false

/-- `conf.as_user_worker()` -/
def WorkerRuntimeOpts.as_user_worker : WorkerRuntimeOpts → Option UserWorkerRuntimeOpts
  | .UserWorker u => some u
  | _ => none

/-- `conf.as_main_worker()` -/
def WorkerRuntimeOpts.as_main_worker : WorkerRuntimeOpts → Option MainWorkerRuntimeOpts
  | .MainWorker m => some m
  | _ => none

/-- `sb_graph::EszipPayloadKind`: a prebuilt module bundle, either an
in-memory eszip value or raw bytes.  Contents are opaque to the supervisor;
modelled by an id / byte list. -/
inductive EszipPayloadKind where
  | Eszip (id : Nat)
  | VecKind (bytes : List Nat)
deriving DecidableEq, Repr

/-- Environment-variable mapping (`HashMap<String, String>` in the source).
Modelled as an association list where `envInsert` conses and `envGet`
returns the most recent binding — extensionally the HashMap's
insert/lookup behaviour. -/
abbrev EnvVars := List (String × String)

/-- HashMap lookup: value of the most recently inserted binding of `k`. -/
def envGet (m : EnvVars) (k : String) : Option String :=
  (m.find? (fun p => p.1 == k)).map (fun p => p.2)

/-- HashMap insert: the new binding shadows any older one. -/
def envInsert (m : EnvVars) (k v : String) : EnvVars :=
  (k, v) :: m

/-- `sb_workers::context::WorkerContextInitOpts`.
Modelled from the spec: the struct lives in the `sb_workers` crate; fields
are the ones destructured in `DenoRuntime::new` plus `timing_rx_pair` from
the tests.  Paths and URLs are modelled as strings; channel endpoints as
opaque numeric ids. -/
structure WorkerContextInitOpts where
  service_path : String
  no_module_cache : Bool
  import_map_path : Option String
  env_vars : EnvVars
  events_rx : Option Nat
  timing_rx_pair : Option Nat
  maybe_eszip : Option EszipPayloadKind
  maybe_entrypoint : Option String
  maybe_module_code : Option String
  conf : WorkerRuntimeOpts
deriving DecidableEq, Repr

/-- `crate::utils::units::mib_to_bytes`.  Modelled from the spec: the
helper lives in `crates/base/src/utils/units.rs`, not among the sources
here; the spec's heap ceiling is `memory_limit_mb` mebibytes. -/
def mib_to_bytes (mib : Nat) : Nat :=
  mib * 1024 * 1024

/-- The V8 create params installed for user workers: initial and max heap
limits plus the array-buffer allocator's byte bound
(`CreateParams::default().heap_limits(..).array_buffer_allocator(..)`). -/
structure CreateParamsM where
  initial_heap_bytes : Nat
  max_heap_bytes : Nat
  array_buffer_allocator_bytes : Nat
deriving DecidableEq, Repr

/-- `DenoRuntime::new` lines 254-263: `create_params` is populated only for
user workers, with heap limits `(mib_to_bytes 0, mib_to_bytes memory_limit_mb)`
and a custom array-buffer allocator bounded by the same byte count. -/
def createParams : WorkerRuntimeOpts → Option CreateParamsM
  | .UserWorker u =>
      some ⟨mib_to_bytes 0, mib_to_bytes u.memory_limit_mb,
            mib_to_bytes u.memory_limit_mb⟩
  | _ => none

/-- Errors while populating the root certificate store.  `unknownStore` is
the `bail!` of the catch-all arm (a returned error); `nativeCertsFailed` is
the `expect` on `load_native_certs()` (a panic). -/
inductive CertStoreError where
  | unknownStore (name : String)
  | nativeCertsFailed (msg : String)
deriving DecidableEq, Repr

/-- `deno_tls::create_default_root_cert_store()`.  Modelled from the spec:
the bundled Mozilla default certificate set, opaque here. -/
def createDefaultRootCertStore : List String :=
  ["<bundled-mozilla-root-certs>"]

/-- `DENO_TLS_CA_STORE` parsing (lines 150-160): when the variable is set,
split on commas, trim, and drop empty entries; when unset, default to
`["mozilla"]`. -/
def parseCaStores (envVar : Option String) : List String :=
  match envVar with
  | some s => ((s.splitOn ",").map String.trim).filter (fun t => t ≠ "")
  | none => ["mozilla"]

/-- One iteration of the `for store in ca_stores` loop (lines 161-181):
"mozilla" replaces the store with the bundled default set, "system" appends
the platform-native certificates (panicking when their enumeration failed),
and any other name aborts with an error. -/
def addCaStore (roots : List String) (name : String)
    (native : Except String (List String)) : Except CertStoreError (List String) :=
  match name with
  | "mozilla" => .ok createDefaultRootCertStore
  | "system" =>
      match native with
      | .ok certs => .ok (roots ++ certs)
      | .error e => .error (.nativeCertsFailed e)
  | _ => .error (.unknownStore name)

/-- The loop over the parsed store names, threading the mutable
`root_cert_store` (initially `RootCertStore::empty()`). -/
def populateFrom (roots : List String) (stores : List String)
    (native : Except String (List String)) : Except CertStoreError (List String) :=
  match stores with
  | [] => .ok roots
  | s :: rest =>
      match addCaStore roots s native with
      | .error e => .error e
      | .ok roots2 => populateFrom roots2 rest native

/-- Root-cert-store construction for a parsed store list. -/
def populateRootCertStore (stores : List String)
    (native : Except String (List String)) : Except CertStoreError (List String) :=
  populateFrom [] stores native

/-- `Except.isOk`, as a plain Bool on our error types. -/
def exceptOk {ε α : Type} : Except ε α → Bool
  | .ok _ => true
  | .error _ => false

instance instDecEqExcept {ε α : Type} [DecidableEq ε] [DecidableEq α] :
    DecidableEq (Except ε α)
  | .ok a, .ok b =>
      if h : a = b then isTrue (congrArg Except.ok h)
      else isFalse (fun hh => h (Except.ok.inj hh))
  | .ok _, .error _ => isFalse (fun hh => Except.noConfusion hh)
  | .error _, .ok _ => isFalse (fun hh => Except.noConfusion hh)
  | .error e, .error f =>
      if h : e = f then isTrue (congrArg Except.error h)
      else isFalse (fun hh => h (Except.error.inj hh))

/-- `Url::from_directory_path(current_dir().join(service_path))`:
the directory URL of the service root. -/
def baseUrl (cwd service_path : String) : String :=
  "file://" ++ cwd ++ "/" ++ service_path ++ "/"

/-- Lines 90-94: the main-module URL is `base_url.join("index.ts")` unless
an explicit entrypoint was given, in which case it is `Url::parse` of the
entrypoint (URL syntax is not re-validated in this model). -/
def mainModuleUrl (cwd : String) (opts : WorkerContextInitOpts) : String :=
  match opts.maybe_entrypoint with
  | some e => e
  | none => baseUrl cwd opts.service_path ++ "index.ts"

/-- Line 105: inline module code is honored only when no prebuilt eszip and
no explicit entrypoint were supplied. -/
def onlyModuleCode (opts : WorkerContextInitOpts) : Bool :=
  opts.maybe_module_code.isSome && opts.maybe_eszip.isNone &&
    !opts.maybe_entrypoint.isSome

/-- Outcome of the `let eszip = if let Some(eszip_payload) ...` selection
(lines 108-145): either the supplied prebuilt bundle, or a call to
`generate_binary_eszip` with the main-module path, the (possibly absent)
inline code, and the import-map path. -/
inductive EszipSource where
  | supplied (p : EszipPayloadKind)
  | generated (entry : String) (code : Option String) (importMap : Option String)
deriving DecidableEq, Repr

/-- The code-source selection of `DenoRuntime::new`. -/
def eszipSource (cwd : String) (opts : WorkerContextInitOpts) : EszipSource :=
  match opts.maybe_eszip with
  | some p => .supplied p
  | none =>
      .generated (mainModuleUrl cwd opts)
        (if onlyModuleCode opts then opts.maybe_module_code else none)
        opts.import_map_path

/-- The first positional bootstrap argument:
`json!({ "target": env!("TARGET") })`. -/
structure PlatformTarget where
  target : String
deriving DecidableEq, Repr

/-- The four fixed positional arguments of
`globalThis.bootstrapSBEdge(target, is_user_worker, is_events_worker, version)`
(lines 281-287). -/
structure BootstrapArgs where
  target : PlatformTarget
  is_user_worker : Bool
  is_events_worker : Bool
  version : String
deriving DecidableEq, Repr

/-- Assembly of the bootstrap arguments; `version.unwrap_or("0.1.0")`
supplies the default when `GIT_V_TAG` is unset. -/
def bootstrapArgs (target : String) (conf : WorkerRuntimeOpts)
    (gitVTag : Option String) : BootstrapArgs :=
  ⟨⟨target⟩, conf.is_user_worker, conf.is_events_worker, gitVTag.getD "0.1.0"⟩

/-- Observable steps of `DenoRuntime::new` / `DenoRuntime::run`, recorded in
order: the bundling call, `JsRuntime::new`, the bootstrap script execution,
each `op_state.put` (keyed by the Rust type that is put), and the
main-module load. -/
inductive NewEvent where
  | generateEszip (entry : String) (code : Option String) (importMap : Option String)
  | jsRuntimeNew (params : Option CreateParamsM)
  | execBootstrap (args : BootstrapArgs)
  | putEventsRx
  | putEventsMsgTx
  | putEventMetadata (service_path : Option String) (execution_id : Option String)
  | putEnvVars (vars : EnvVars)
  | putUnixStreamRx
  | putUserWorkerMsgsTx
  | loadMainModule (url : String)
deriving DecidableEq, Repr

/-- Whether an event is the bootstrap-script execution. -/
def NewEvent.isBootstrap : NewEvent → Bool
  | .execBootstrap _ => true
  | _ => false

/-- Whether an event is a `generate_binary_eszip` (bundling) call. -/
def NewEvent.isGenerateEszip : NewEvent → Bool
  | .generateEszip _ _ _ => true
  | _ => false

/-- The bundling call recorded in the trace: present exactly when no
prebuilt eszip was supplied. -/
def eszipEvents (cwd : String) (opts : WorkerContextInitOpts) : List NewEvent :=
  match eszipSource cwd opts with
  | .supplied _ => []
  | .generated entry code im => [.generateEszip entry code im]

/-- The environment snapshot put into the op state (lines 296-324): a clone
of the request's `env_vars` into which, for user workers only,
`SB_EXECUTION_ID` is inserted with the worker's key (empty string when the
key is absent). -/
def injectedEnvVars (opts : WorkerContextInitOpts) : EnvVars :=
  match opts.conf with
  | .UserWorker u => envInsert opts.env_vars "SB_EXECUTION_ID" (u.key.getD "")
  | _ => opts.env_vars

/-- The `op_state.put` calls of the construction-time block (lines 293-325),
in source order: the events receiver for events workers; for user workers
with an events channel, the sender and the event metadata; finally the
environment snapshot (always). -/
def opStatePuts (opts : WorkerContextInitOpts) : List NewEvent :=
  (if opts.conf.is_events_worker then [NewEvent.putEventsRx] else []) ++
  (match opts.conf with
   | .UserWorker u =>
       match u.events_msg_tx with
       | some _ => [NewEvent.putEventsMsgTx,
                    NewEvent.putEventMetadata u.service_path u.key]
       | none => []
   | _ => []) ++
  [NewEvent.putEnvVars (injectedEnvVars opts)]

/-- Results of the external calls `DenoRuntime::new` and `DenoRuntime::run`
make, plus ambient process state (`current_dir`, `DENO_TLS_CA_STORE`,
`TARGET`, `GIT_V_TAG`). -/
structure Host where
  cwd : String
  denoTlsCaStoreEnv : Option String
  nativeCerts : Except String (List String)
  target : String
  gitVTag : Option String
  bundleResult : Except String Unit
  bootstrapResult : Except String Unit
  loadMainModuleResult : Except String Nat
deriving DecidableEq, Repr

/-- The constructed runtime (`struct DenoRuntime`); the `js_runtime` handle
itself is opaque and omitted. -/
structure DenoRuntime where
  env_vars : EnvVars
  main_module_id : Nat
  conf : WorkerRuntimeOpts
deriving DecidableEq, Repr

/-- Result of `DenoRuntime::new`: success, a returned `Err`, or a panic
(`unwrap` / `expect`), each with the trace of steps performed so far. -/
inductive NewOutcome where
  | ok (rt : DenoRuntime) (trace : List NewEvent)
  | err (msg : String) (trace : List NewEvent)
  | fatal (msg : String) (trace : List NewEvent)
deriving DecidableEq, Repr

/-- The recorded steps of a construction outcome. -/
def NewOutcome.trace : NewOutcome → List NewEvent
  | .ok _ tr => tr
  | .err _ tr => tr
  | .fatal _ tr => tr

/-- Whether construction succeeded. -/
def NewOutcome.isOk : NewOutcome → Bool
  | .ok _ _ => true
  | _ => false

/-- Whether construction ended in a panic. -/
def NewOutcome.isFatal : NewOutcome → Bool
  | .fatal _ _ => true
  | _ => false

/-- `DenoRuntime::new`, step by step (lines 71-337): code-source selection
(bundling unless a prebuilt eszip was supplied), root-cert-store
population, `JsRuntime::new` with the role's create params, the single
bootstrap script execution (`expect` on failure), the op-state puts
(`unwrap` of `events_rx` for events workers), and the main-module load.
The returned runtime carries the untouched request `env_vars`. -/
def DenoRuntime.new (opts : WorkerContextInitOpts) (host : Host) : NewOutcome :=
  let url := mainModuleUrl host.cwd opts
  let tr0 := eszipEvents host.cwd opts
  if opts.maybe_eszip.isNone && !(exceptOk host.bundleResult) then
    .err "bundling failed" tr0
  else
    match populateRootCertStore (parseCaStores host.denoTlsCaStoreEnv)
        host.nativeCerts with
    | .error (.unknownStore name) =>
        .err ("Unknown certificate store \x22" ++ name ++
          "\x22 specified (allowed: \x22system,mozilla\x22)") tr0
    | .error (.nativeCertsFailed _) =>
        .fatal "could not load platform certs" tr0
    | .ok _ =>
        let tr2 := tr0 ++ [NewEvent.jsRuntimeNew (createParams opts.conf),
          NewEvent.execBootstrap (bootstrapArgs host.target opts.conf host.gitVTag)]
        match host.bootstrapResult with
        | .error _ => .fatal "Failed to execute bootstrap script" tr2
        | .ok _ =>
            if opts.conf.is_events_worker && opts.events_rx.isNone then
              .fatal "called Option::unwrap on a None value" tr2
            else
              let tr3 := tr2 ++ opStatePuts opts ++ [NewEvent.loadMainModule url]
              match host.loadMainModuleResult with
              | .error e => .err e tr3
              | .ok mid => .ok ⟨opts.env_vars, mid, opts.conf⟩ tr3

/-- `DenoRuntime::run` lines 376-381: the timeout duration is
`worker_timeout_ms` for user workers and `Duration::MAX` otherwise,
modelled as `none` (no deadline: `Duration::MAX` is astronomically large
and tokio clamps its deadline to a never-reached far future). -/
def wallClockDeadline : WorkerRuntimeOpts → Option Nat
  | .UserWorker u => some u.worker_timeout_ms
  | _ => none

/-- `tokio::time::timeout(duration, future)` (lines 382-385): `fut` gives
the completion time and result of the inner future (`none` when it never
completes).  The race yields the inner result when the future completes
strictly before the deadline, the timeout error otherwise; with no deadline
and a never-completing future, `run` never returns (`none`). -/
def timeoutRace (deadline : Option Nat)
    (fut : Option (Nat × Except String Unit)) : Option (Except String Unit) :=
  match deadline, fut with
  | none, none => none
  | none, some (_, r) => some r
  | some _, none => some (Except.error "wall clock duration reached")
  | some d, some (t, r) =>
      if t < d then some r else some (Except.error "wall clock duration reached")

/-- The inner future of `run` (lines 357-374): an event-loop error maps to
`Err("event loop error: ..")`, a dropped module-result sender to
`Err("mod result sender dropped")`, a rejected evaluation to its error, and
a settled evaluation to `Ok(())`. -/
def innerFutureResult (eventLoop : Except String Unit)
    (modResult : Option (Except String Unit)) : Except String Unit :=
  match eventLoop with
  | .error e => .error ("event loop error: " ++ e)
  | .ok _ =>
      match modResult with
      | none => .error "mod result sender dropped"
      | some (.error e) => .error e
      | some (.ok _) => .ok ()

/-- The `op_state.put` calls of `run` (lines 343-353): the unix-stream
receiver always, then the pool-dispatch sender for the main worker only. -/
def runOpStatePuts (conf : WorkerRuntimeOpts) : List NewEvent :=
  [NewEvent.putUnixStreamRx] ++
    (if conf.is_main_worker then [NewEvent.putUserWorkerMsgsTx] else [])

/-- Result of `DenoRuntime::run`: the raced outcome (`none` = the call never
returns) and the op-state puts it performed. -/
structure RunModel where
  result : Option (Except String Unit)
  opPuts : List NewEvent
deriving DecidableEq, Repr

/-- `DenoRuntime::run` (lines 339-386). -/
def DenoRuntime.run (rt : DenoRuntime)
    (fut : Option (Nat × Except String Unit)) : RunModel :=
  ⟨timeoutRace (wallClockDeadline rt.conf) fut, runOpStatePuts rt.conf⟩

/-- Bundling succeeded or was skipped because a prebuilt eszip was given. -/
def bundlingOk (opts : WorkerContextInitOpts) (host : Host) : Bool :=
  opts.maybe_eszip.isSome || exceptOk host.bundleResult

/-- The root-cert-store population succeeded for this host. -/
def certStoreOk (host : Host) : Bool :=
  exceptOk (populateRootCertStore (parseCaStores host.denoTlsCaStoreEnv) host.nativeCerts)

/-- Concrete user-worker options used as test fixtures. -/
def sampleUser : UserWorkerRuntimeOpts :=
  ⟨64, 100, 100, 200, 5, true, false, true, none, none, none, none, none⟩

/-- Concrete main-worker options used as test fixtures. -/
def sampleMain : MainWorkerRuntimeOpts := ⟨0⟩

/-- A user-worker role fixture. -/
def sampleUserConf : WorkerRuntimeOpts := WorkerRuntimeOpts.UserWorker sampleUser

/-- A main-worker role fixture. -/
def sampleMainConf : WorkerRuntimeOpts := WorkerRuntimeOpts.MainWorker sampleMain

/-- A constructed user runtime fixture (timeout 100 ms). -/
def sampleUserRt : DenoRuntime := ⟨[], 1, sampleUserConf⟩

/-- A prebuilt bundle fixture. -/
def sampleEszip : EszipPayloadKind := EszipPayloadKind.VecKind [1, 2, 3]

/-- A host fixture where every external call succeeds. -/
def sampleHost : Host :=
  ⟨"/srv", none, Except.ok [], "x86_64-unknown-linux-gnu", none,
    Except.ok (), Except.ok (), Except.ok 1⟩

/-- Init-request fixture: main worker with a prebuilt eszip. -/
def sampleOptsEszip : WorkerContextInitOpts :=
  ⟨"main", false, none, [], none, none, some sampleEszip, none, none, sampleMainConf⟩

/-- Init-request fixture: main worker with inline module code only. -/
def sampleOptsInline : WorkerContextInitOpts :=
  ⟨"main", false, none, [], none, none, none, none, some "code", sampleMainConf⟩

/-- Init-request fixture: user worker with one env var and a prebuilt eszip. -/
def sampleOptsUser : WorkerContextInitOpts :=
  ⟨"main", false, none, [("FOO", "bar")], none, none, some sampleEszip, none, none,
    sampleUserConf⟩

/-- Init-request fixture: events worker with its receiver present. -/
def sampleOptsEvents : WorkerContextInitOpts :=
  ⟨"main", false, none, [], some 7, none, some sampleEszip, none, none,
    WorkerRuntimeOpts.EventsWorker⟩

/-- Init-request fixture: events worker whose receiver is absent. -/
def sampleOptsEventsNoRx : WorkerContextInitOpts :=
  ⟨"main", false, none, [], none, none, some sampleEszip, none, none,
    WorkerRuntimeOpts.EventsWorker⟩

lemma eszipEvents_mem (cwd : String) (opts : WorkerContextInitOpts) :
    ∀ e ∈ eszipEvents cwd opts, ∃ a b c, e = NewEvent.generateEszip a b c := by
  intro e he
  unfold eszipEvents at he
  cases hs : eszipSource cwd opts with
  | supplied p => rw [hs] at he; simp at he
  | generated a b c =>
      rw [hs] at he
      simp at he
      exact ⟨a, b, c, he⟩

lemma opStatePuts_mem (opts : WorkerContextInitOpts) :
    ∀ e ∈ opStatePuts opts,
      e = NewEvent.putEventsRx ∨ e = NewEvent.putEventsMsgTx ∨
      (∃ sp eid, e = NewEvent.putEventMetadata sp eid) ∨
      e = NewEvent.putEnvVars (injectedEnvVars opts) := by
  intro e he
  unfold opStatePuts at he
  cases h : opts.conf with
  | UserWorker u =>
      cases htx : u.events_msg_tx with
      | some tx =>
          simp [h, htx, WorkerRuntimeOpts.is_events_worker] at he
          rcases he with he | he | he
          · exact Or.inr (Or.inl he)
          · exact Or.inr (Or.inr (Or.inl ⟨u.service_path, u.key, he⟩))
          · exact Or.inr (Or.inr (Or.inr he))
      | none =>
          simp [h, htx, WorkerRuntimeOpts.is_events_worker] at he
          exact Or.inr (Or.inr (Or.inr he))
  | MainWorker m =>
      simp [h, WorkerRuntimeOpts.is_events_worker] at he
      exact Or.inr (Or.inr (Or.inr he))
  | EventsWorker =>
      simp [h, WorkerRuntimeOpts.is_events_worker] at he
      rcases he with he | he
      · exact Or.inl he
      · exact Or.inr (Or.inr (Or.inr he))

lemma new_trace_shape (opts : WorkerContextInitOpts) (host : Host) :
    (DenoRuntime.new opts host).trace = eszipEvents host.cwd opts ∨
    (DenoRuntime.new opts host).trace =
      eszipEvents host.cwd opts ++
        [NewEvent.jsRuntimeNew (createParams opts.conf),
         NewEvent.execBootstrap (bootstrapArgs host.target opts.conf host.gitVTag)] ∨
    (DenoRuntime.new opts host).trace =
      eszipEvents host.cwd opts ++
        [NewEvent.jsRuntimeNew (createParams opts.conf),
         NewEvent.execBootstrap (bootstrapArgs host.target opts.conf host.gitVTag)] ++
        opStatePuts opts ++ [NewEvent.loadMainModule (mainModuleUrl host.cwd opts)] := by
  unfold DenoRuntime.new
  split
  · left; rfl
  · split
    · left; rfl
    · left; rfl
    · split
      · right; left; rfl
      · split
        · right; left; rfl
        · split
          · right; right; rfl
          · right; right; rfl

lemma putUserWorkerMsgsTx_not_in_new_trace (opts : WorkerContextInitOpts) (host : Host) :
    NewEvent.putUserWorkerMsgsTx ∉ (DenoRuntime.new opts host).trace := by
  intro hmem
  rcases new_trace_shape opts host with h | h | h <;> rw [h] at hmem
  · obtain ⟨a, b, c, he⟩ := eszipEvents_mem _ _ _ hmem
    cases he
  · rcases List.mem_append.mp hmem with hmem | hmem
    · obtain ⟨a, b, c, he⟩ := eszipEvents_mem _ _ _ hmem
      cases he
    · simp at hmem
  · rcases List.mem_append.mp hmem with hmem | hmem
    · rcases List.mem_append.mp hmem with hmem | hmem
      · rcases List.mem_append.mp hmem with hmem | hmem
        · obtain ⟨a, b, c, he⟩ := eszipEvents_mem _ _ _ hmem
          cases he
        · simp at hmem
      · rcases opStatePuts_mem _ _ hmem with he | he | ⟨sp, eid, he⟩ | he <;> cases he
    · simp at hmem

/-- C3: a `User` role with `memory_limit_mb = M` installs V8 create params
whose heap ceiling and array-buffer allocator bound are both `M` MiB
(`M * 1048576` bytes, initial heap 0); `Main` and `Event` roles install no
create params at all, leaving the heap unbounded. -/
theorem user_heap_ceiling_iff_user_role :
    ∀ (u : UserWorkerRuntimeOpts) (m : MainWorkerRuntimeOpts),
      createParams (WorkerRuntimeOpts.UserWorker u) =
        some ⟨0, u.memory_limit_mb * 1048576, u.memory_limit_mb * 1048576⟩ ∧
      createParams (WorkerRuntimeOpts.MainWorker m) = none ∧
      createParams WorkerRuntimeOpts.EventsWorker = none := by
  intro u m
  refine ⟨?_, rfl, rfl⟩
  simp only [createParams, mib_to_bytes, CreateParamsM.mk.injEq, Option.some.injEq]
  refine ⟨trivial, ?_, ?_⟩ <;> ring

theorem user_heap_ceiling_iff_user_role_witness :
    createParams (WorkerRuntimeOpts.UserWorker sampleUser) =
      some ⟨0, 64 * 1048576, 64 * 1048576⟩ :=
  (user_heap_ceiling_iff_user_role sampleUser sampleMain).1

/-- C1: the wall-clock deadline of `run` is `worker_timeout_ms` exactly for
the `User` role (`as_user_worker` is `some` exactly then); other roles get
no deadline; and a user run whose future has not completed at the deadline
returns the wall-clock error instead of hanging. -/
theorem run_wall_clock_deadline_user_only (conf : WorkerRuntimeOpts) :
    wallClockDeadline conf = conf.as_user_worker.map (fun u => u.worker_timeout_ms) ∧
    (wallClockDeadline conf = none ↔ conf.is_user_worker = false) ∧
    (∀ (rt : DenoRuntime) (fut : Option (Nat × Except String Unit))
       (u : UserWorkerRuntimeOpts),
      rt.conf = conf → conf = WorkerRuntimeOpts.UserWorker u →
      (∀ t r, fut = some (t, r) → u.worker_timeout_ms ≤ t) →
      (DenoRuntime.run rt fut).result =
        some (Except.error "wall clock duration reached")) := by
  refine ⟨?_, ?_, ?_⟩
  · cases conf <;> rfl
  · cases conf <;> simp [wallClockDeadline, WorkerRuntimeOpts.is_user_worker]
  · intro rt fut u hrt hconf hlate
    subst hconf
    cases fut with
    | none => simp [DenoRuntime.run, timeoutRace, wallClockDeadline, hrt]
    | some p =>
        obtain ⟨t, r⟩ := p
        have ht := hlate t r rfl
        simp [DenoRuntime.run, timeoutRace, wallClockDeadline, hrt, Nat.not_lt.mpr ht]

theorem run_wall_clock_deadline_user_only_witness :
    (DenoRuntime.run sampleUserRt none).result =
      some (Except.error "wall clock duration reached") :=
  (run_wall_clock_deadline_user_only sampleUserConf).2.2 sampleUserRt none sampleUser
    rfl rfl (fun t r h => by cases h)

/-- C9: the pool-dispatch sender is never put into the op state during
construction (for any request and host), and at run time it is put exactly
when the role is `Main`; hence `User` and `Event` workers never observe it. -/
theorem pool_dispatch_sender_main_only :
    (∀ (opts : WorkerContextInitOpts) (host : Host),
      NewEvent.putUserWorkerMsgsTx ∉ (DenoRuntime.new opts host).trace) ∧
    (∀ conf : WorkerRuntimeOpts,
      (NewEvent.putUserWorkerMsgsTx ∈ runOpStatePuts conf ↔ conf.is_main_worker = true)) := by
  refine ⟨putUserWorkerMsgsTx_not_in_new_trace, ?_⟩
  intro conf
  cases conf <;> simp [runOpStatePuts, WorkerRuntimeOpts.is_main_worker]

theorem pool_dispatch_sender_main_only_witness :
    NewEvent.putUserWorkerMsgsTx ∉ (DenoRuntime.new sampleOptsUser sampleHost).trace ∧
    NewEvent.putUserWorkerMsgsTx ∈ runOpStatePuts sampleMainConf :=
  ⟨pool_dispatch_sender_main_only.1 sampleOptsUser sampleHost,
   (pool_dispatch_sender_main_only.2 sampleMainConf).mpr rfl⟩

/-- C7: for a `User` role the injected environment snapshot maps
`SB_EXECUTION_ID` to the worker's execution key (empty string when absent)
and the snapshot put is among the construction op-state puts; for non-user
roles the snapshot is exactly the request's `env_vars` (no key added). -/
theorem user_env_snapshot_execution_id (opts : WorkerContextInitOpts) :
    (∀ u, opts.conf = WorkerRuntimeOpts.UserWorker u →
      envGet (injectedEnvVars opts) "SB_EXECUTION_ID" = some (u.key.getD "") ∧
      NewEvent.putEnvVars (injectedEnvVars opts) ∈ opStatePuts opts) ∧
    (opts.conf.is_user_worker = false → injectedEnvVars opts = opts.env_vars) := by
  constructor
  · intro u hconf
    constructor
    · simp [injectedEnvVars, hconf, envInsert, envGet]
    · simp [opStatePuts]
  · intro hnot
    cases h : opts.conf with
    | UserWorker u => rw [h] at hnot; simp [WorkerRuntimeOpts.is_user_worker] at hnot
    | MainWorker m => simp [injectedEnvVars, h]
    | EventsWorker => simp [injectedEnvVars, h]

theorem user_env_snapshot_execution_id_witness :
    envGet (injectedEnvVars sampleOptsUser) "SB_EXECUTION_ID" = some "" ∧
    injectedEnvVars sampleOptsEszip = sampleOptsEszip.env_vars :=
  ⟨((user_env_snapshot_execution_id sampleOptsUser).1 sampleUser rfl).1,
   (user_env_snapshot_execution_id sampleOptsEszip).2 rfl⟩

/-- C10: the `env_vars` field of a successfully constructed runtime is
exactly the request's mapping — the `SB_EXECUTION_ID` entry lives only in
the injected snapshot, which otherwise agrees with the request mapping on
every other key. -/
theorem env_vars_field_unchanged (opts : WorkerContextInitOpts) (host : Host) :
    (∀ rt tr, DenoRuntime.new opts host = NewOutcome.ok rt tr →
      rt.env_vars = opts.env_vars) ∧
    (∀ k, k ≠ "SB_EXECUTION_ID" →
      envGet (injectedEnvVars opts) k = envGet opts.env_vars k) := by
  constructor
  · intro rt tr hok
    unfold DenoRuntime.new at hok
    split at hok
    · cases hok
    · split at hok
      · cases hok
      · cases hok
      · split at hok
        · cases hok
        · split at hok
          · cases hok
          · split at hok
            · cases hok
            · cases hok
              rfl
  · intro k hk
    cases h : opts.conf with
    | UserWorker u =>
        have hne : ("SB_EXECUTION_ID" == k) = false := by
          simp [beq_iff_eq]
          exact fun hh => hk hh.symm
        simp [injectedEnvVars, h, envInsert, envGet, List.find?, hne]
    | MainWorker m => simp [injectedEnvVars, h]
    | EventsWorker => simp [injectedEnvVars, h]

theorem env_vars_field_unchanged_witness :
    ∃ rt tr, DenoRuntime.new sampleOptsUser sampleHost = NewOutcome.ok rt tr ∧
      rt.env_vars = sampleOptsUser.env_vars ∧
      envGet (injectedEnvVars sampleOptsUser) "FOO" = envGet sampleOptsUser.env_vars "FOO" := by
  refine ⟨⟨sampleOptsUser.env_vars, 1, sampleUserConf⟩, ?_, ?_, ?_, ?_⟩
  · exact (DenoRuntime.new sampleOptsUser sampleHost).trace
  · rfl
  · exact (env_vars_field_unchanged sampleOptsUser sampleHost).1 _ _ rfl
  · exact (env_vars_field_unchanged sampleOptsUser sampleHost).2 "FOO" (by decide)

/-- C4 counterexample: with `worker_timeout_ms = 100`, a user run whose
future never completes (a never-settling top-level promise) and one whose
future completes only at t = 200 (settling after the deadline) produce the
IDENTICAL outcome — the single error `"wall clock duration reached"` — so
`run` has no distinct `ModuleEvaluationTimedOut` and `TimedOut` outcomes. -/
theorem timeout_outcomes_not_distinguished_counterexample :
    (DenoRuntime.run sampleUserRt none).result =
      (DenoRuntime.run sampleUserRt (some (200, Except.ok ()))).result ∧
    (DenoRuntime.run sampleUserRt none).result =
      some (Except.error "wall clock duration reached") := by
  constructor <;> rfl

/-- C4 amended: for a `User` worker with `wall_clock_timeout_ms = T`, a
future settling before `T` yields its own result, while BOTH timeout cases
— a future that never completes and one completing at or after `T` — yield
the same single error `"wall clock duration reached"`; the code draws no
`ModuleEvaluationTimedOut` / `TimedOut` distinction. -/
theorem timeout_single_error_outcome (u : UserWorkerRuntimeOpts)
    (rt : DenoRuntime) (hconf : rt.conf = WorkerRuntimeOpts.UserWorker u) :
    (∀ t r, t < u.worker_timeout_ms →
      (DenoRuntime.run rt (some (t, r))).result = some r) ∧
    (∀ t r, u.worker_timeout_ms ≤ t →
      (DenoRuntime.run rt (some (t, r))).result =
        some (Except.error "wall clock duration reached")) ∧
    (DenoRuntime.run rt none).result =
      some (Except.error "wall clock duration reached") := by
  refine ⟨?_, ?_, ?_⟩
  · intro t r ht
    simp [DenoRuntime.run, timeoutRace, wallClockDeadline, hconf, ht]
  · intro t r ht
    simp [DenoRuntime.run, timeoutRace, wallClockDeadline, hconf, Nat.not_lt.mpr ht]
  · simp [DenoRuntime.run, timeoutRace, wallClockDeadline, hconf]

theorem timeout_single_error_outcome_witness :
    (DenoRuntime.run sampleUserRt (some (50, Except.ok ()))).result =
      some (Except.ok ()) ∧
    (DenoRuntime.run sampleUserRt (some (200, Except.ok ()))).result =
      some (Except.error "wall clock duration reached") :=
  ⟨(timeout_single_error_outcome sampleUser sampleUserRt rfl).1 50 (Except.ok ())
      (by decide),
   (timeout_single_error_outcome sampleUser sampleUserRt rfl).2.1 200 (Except.ok ())
      (by decide)⟩

/-- Init-request fixture: main worker with an explicit entrypoint and inline
code both supplied (the entrypoint wins, the inline code is ignored). -/
def sampleOptsEntry : WorkerContextInitOpts :=
  ⟨"main", false, none, [], none, none, none, some "file:///e.ts", some "code",
    sampleMainConf⟩

lemma filter_gen_eszipEvents (cwd : String) (opts : WorkerContextInitOpts) :
    (eszipEvents cwd opts).filter NewEvent.isGenerateEszip = eszipEvents cwd opts := by
  unfold eszipEvents
  split <;> simp [NewEvent.isGenerateEszip]

lemma filter_gen_opStatePuts (opts : WorkerContextInitOpts) :
    (opStatePuts opts).filter NewEvent.isGenerateEszip = [] := by
  rw [List.filter_eq_nil_iff]
  intro a ha
  rcases opStatePuts_mem opts a ha with h | h | ⟨sp, eid, h⟩ | h <;>
    subst h <;> simp [NewEvent.isGenerateEszip]

lemma filter_gen_trace (opts : WorkerContextInitOpts) (host : Host) :
    (DenoRuntime.new opts host).trace.filter NewEvent.isGenerateEszip =
      eszipEvents host.cwd opts := by
  rcases new_trace_shape opts host with h | h | h <;> rw [h] <;>
    simp [List.filter_append, filter_gen_eszipEvents, filter_gen_opStatePuts,
      NewEvent.isGenerateEszip]

/-- C2: code-source precedence.  A supplied prebuilt eszip is used as-is and
the construction trace contains no bundling call at all; with no eszip and
no explicit entrypoint, inline module code is passed to the single bundling
call rooted at the default index module; otherwise (explicit entrypoint, or
no inline code) bundling resolves the module graph from the entrypoint URL
with no inline code. -/
theorem code_source_precedence (opts : WorkerContextInitOpts) (host : Host) :
    (∀ p, opts.maybe_eszip = some p →
      eszipSource host.cwd opts = EszipSource.supplied p ∧
      (DenoRuntime.new opts host).trace.filter NewEvent.isGenerateEszip = []) ∧
    (opts.maybe_eszip = none → opts.maybe_entrypoint = none →
      ∀ c, opts.maybe_module_code = some c →
      eszipSource host.cwd opts =
        EszipSource.generated (baseUrl host.cwd opts.service_path ++ "index.ts")
          (some c) opts.import_map_path ∧
      (DenoRuntime.new opts host).trace.filter NewEvent.isGenerateEszip =
        [NewEvent.generateEszip (baseUrl host.cwd opts.service_path ++ "index.ts")
          (some c) opts.import_map_path]) ∧
    (opts.maybe_eszip = none →
      (opts.maybe_entrypoint.isSome = true ∨ opts.maybe_module_code = none) →
      eszipSource host.cwd opts =
        EszipSource.generated (mainModuleUrl host.cwd opts) none
          opts.import_map_path) := by
  refine ⟨?_, ?_, ?_⟩
  · intro p hp
    constructor
    · simp [eszipSource, hp]
    · rw [filter_gen_trace]
      simp [eszipEvents, eszipSource, hp]
  · intro he hent c hc
    constructor
    · simp [eszipSource, he, onlyModuleCode, hc, hent, mainModuleUrl]
    · rw [filter_gen_trace]
      simp [eszipEvents, eszipSource, he, onlyModuleCode, hc, hent, mainModuleUrl]
  · intro he hrest
    rcases hrest with hent | hc
    · have : onlyModuleCode opts = false := by
        simp [onlyModuleCode, hent]
      simp [eszipSource, he, this]
    · have : onlyModuleCode opts = false := by
        simp [onlyModuleCode, hc]
      simp [eszipSource, he, this]

theorem code_source_precedence_witness :
    eszipSource sampleHost.cwd sampleOptsEszip = EszipSource.supplied sampleEszip ∧
    eszipSource sampleHost.cwd sampleOptsInline =
      EszipSource.generated (baseUrl sampleHost.cwd "main" ++ "index.ts")
        (some "code") none ∧
    eszipSource sampleHost.cwd sampleOptsEntry =
      EszipSource.generated "file:///e.ts" none none :=
  ⟨((code_source_precedence sampleOptsEszip sampleHost).1 sampleEszip rfl).1,
   ((code_source_precedence sampleOptsInline sampleHost).2.1 rfl rfl "code" rfl).1,
   (code_source_precedence sampleOptsEntry sampleHost).2.2 rfl (Or.inl rfl)⟩

/-- Host fixture whose bootstrap-script execution fails. -/
def sampleHostBootFail : Host :=
  ⟨"/srv", none, Except.ok [], "x86_64-unknown-linux-gnu", none,
    Except.ok (), Except.error "boom", Except.ok 1⟩

lemma filter_boot_eszipEvents (cwd : String) (opts : WorkerContextInitOpts) :
    (eszipEvents cwd opts).filter NewEvent.isBootstrap = [] := by
  unfold eszipEvents
  split <;> simp [NewEvent.isBootstrap]

lemma filter_boot_opStatePuts (opts : WorkerContextInitOpts) :
    (opStatePuts opts).filter NewEvent.isBootstrap = [] := by
  rw [List.filter_eq_nil_iff]
  intro a ha
  rcases opStatePuts_mem opts a ha with h | h | ⟨sp, eid, h⟩ | h <;>
    subst h <;> simp [NewEvent.isBootstrap]

lemma new_ok_trace (opts : WorkerContextInitOpts) (host : Host)
    (rt : DenoRuntime) (tr : List NewEvent)
    (h : DenoRuntime.new opts host = NewOutcome.ok rt tr) :
    tr = eszipEvents host.cwd opts ++
      [NewEvent.jsRuntimeNew (createParams opts.conf),
       NewEvent.execBootstrap (bootstrapArgs host.target opts.conf host.gitVTag)] ++
      opStatePuts opts ++ [NewEvent.loadMainModule (mainModuleUrl host.cwd opts)] := by
  unfold DenoRuntime.new at h
  split at h
  · cases h
  · split at h
    · cases h
    · cases h
    · split at h
      · cases h
      · split at h
        · cases h
        · split at h
          · cases h
          · cases h
            rfl

/-- C5: the bootstrap call's four positional arguments are the platform
target object, the `is_user_worker` flag, the `is_events_worker` flag and
the version string with default "0.1.0"; every successful construction's
trace contains exactly one bootstrap execution, placed before the main
module is loaded; and when the bootstrap script fails (with bundling and
cert store fine), construction ends in the unrecovered panic
`"Failed to execute bootstrap script"`. -/
theorem bootstrap_call_shape_and_fatality (opts : WorkerContextInitOpts) (host : Host) :
    bootstrapArgs host.target opts.conf host.gitVTag =
      ⟨⟨host.target⟩, opts.conf.is_user_worker, opts.conf.is_events_worker,
        host.gitVTag.getD "0.1.0"⟩ ∧
    ((DenoRuntime.new opts host).isOk = true →
      ∃ pre post,
        (DenoRuntime.new opts host).trace =
          pre ++ NewEvent.execBootstrap
            (bootstrapArgs host.target opts.conf host.gitVTag) :: post ∧
        pre.filter NewEvent.isBootstrap = [] ∧
        post.filter NewEvent.isBootstrap = [] ∧
        (∀ u2, NewEvent.loadMainModule u2 ∉ pre)) ∧
    (bundlingOk opts host = true → certStoreOk host = true →
      ∀ e, host.bootstrapResult = Except.error e →
        DenoRuntime.new opts host =
          NewOutcome.fatal "Failed to execute bootstrap script"
            (eszipEvents host.cwd opts ++
              [NewEvent.jsRuntimeNew (createParams opts.conf),
               NewEvent.execBootstrap
                 (bootstrapArgs host.target opts.conf host.gitVTag)])) := by
  refine ⟨rfl, ?_, ?_⟩
  · intro hok
    cases hnew : DenoRuntime.new opts host with
    | err m tr => simp [NewOutcome.isOk, hnew] at hok
    | fatal m tr => simp [NewOutcome.isOk, hnew] at hok
    | ok rt tr =>
        have htr := new_ok_trace opts host rt tr hnew
        refine ⟨eszipEvents host.cwd opts ++
            [NewEvent.jsRuntimeNew (createParams opts.conf)],
          opStatePuts opts ++
            [NewEvent.loadMainModule (mainModuleUrl host.cwd opts)],
          ?_, ?_, ?_, ?_⟩
        · simp only [NewOutcome.trace]
          rw [htr]
          simp [List.append_assoc]
        · simp [List.filter_append, filter_boot_eszipEvents, NewEvent.isBootstrap]
        · simp [List.filter_append, filter_boot_opStatePuts, NewEvent.isBootstrap]
        · intro u2 hmem
          rcases List.mem_append.mp hmem with hm | hm
          · obtain ⟨a, b, c, hx⟩ := eszipEvents_mem _ _ _ hm
            cases hx
          · simp at hm
  · intro hb hcert e he
    cases hpop : populateRootCertStore (parseCaStores host.denoTlsCaStoreEnv)
        host.nativeCerts with
    | error err => simp [certStoreOk, hpop, exceptOk] at hcert
    | ok v =>
        cases hme : opts.maybe_eszip with
        | some p => simp [DenoRuntime.new, hme, hpop, he]
        | none =>
            have hbr : exceptOk host.bundleResult = true := by
              simp [bundlingOk, hme] at hb
              exact hb
            simp [DenoRuntime.new, hme, hpop, he, hbr]

theorem bootstrap_call_shape_and_fatality_witness :
    bootstrapArgs sampleHostBootFail.target sampleOptsEszip.conf
        sampleHostBootFail.gitVTag =
      ⟨⟨"x86_64-unknown-linux-gnu"⟩, false, false, "0.1.0"⟩ ∧
    DenoRuntime.new sampleOptsEszip sampleHostBootFail =
      NewOutcome.fatal "Failed to execute bootstrap script"
        (eszipEvents sampleHostBootFail.cwd sampleOptsEszip ++
          [NewEvent.jsRuntimeNew (createParams sampleOptsEszip.conf),
           NewEvent.execBootstrap (bootstrapArgs sampleHostBootFail.target
             sampleOptsEszip.conf sampleHostBootFail.gitVTag)]) :=
  ⟨(bootstrap_call_shape_and_fatality sampleOptsEszip sampleHostBootFail).1,
   (bootstrap_call_shape_and_fatality sampleOptsEszip sampleHostBootFail).2.2
     (by decide) (by decide) "boom" rfl⟩

lemma opStatePuts_events (opts : WorkerContextInitOpts)
    (hconf : opts.conf = WorkerRuntimeOpts.EventsWorker) :
    opStatePuts opts =
      [NewEvent.putEventsRx, NewEvent.putEnvVars (injectedEnvVars opts)] := by
  simp [opStatePuts, hconf, WorkerRuntimeOpts.is_events_worker]

lemma new_reaches_load (opts : WorkerContextInitOpts) (host : Host)
    (hb : bundlingOk opts host = true) (hcert : certStoreOk host = true)
    (hboot : exceptOk host.bootstrapResult = true)
    (hrx : opts.conf.is_events_worker = false ∨ opts.events_rx.isSome = true) :
    (DenoRuntime.new opts host).trace =
      eszipEvents host.cwd opts ++
        [NewEvent.jsRuntimeNew (createParams opts.conf),
         NewEvent.execBootstrap (bootstrapArgs host.target opts.conf host.gitVTag)] ++
        opStatePuts opts ++
        [NewEvent.loadMainModule (mainModuleUrl host.cwd opts)] ∧
    (DenoRuntime.new opts host).isFatal = false := by
  unfold DenoRuntime.new
  split
  · next hif =>
      exfalso
      cases hme : opts.maybe_eszip with
      | some p => rw [hme] at hif; simp at hif
      | none =>
          simp [bundlingOk, hme] at hb
          rw [hme] at hif
          simp [hb] at hif
  · split
    · next name heq => exfalso; simp [certStoreOk, heq, exceptOk] at hcert
    · next heq => exfalso; simp [certStoreOk, heq, exceptOk] at hcert
    · next v heq =>
        split
        · next e heq2 => exfalso; simp [heq2, exceptOk] at hboot
        · next heq2 =>
            split
            · next hif2 =>
                exfalso
                rcases hrx with hrx | hrx
                · rw [hrx] at hif2; simp at hif2
                · cases hrxv : opts.events_rx with
                  | some r => rw [hrxv] at hif2; simp at hif2
                  | none => rw [hrxv] at hrx; simp at hrx
            · split
              · next e heq3 => exact ⟨rfl, rfl⟩
              · next mid heq3 => exact ⟨rfl, rfl⟩

/-- C8: for an `Event` role with the events receiver present, the receiver
is put into the op state during construction, before the main module is
loaded, and — given bundling, cert store and bootstrap succeed — the
injection itself cannot panic (the outcome is never `fatal`); when the
receiver is absent, construction panics (`events_rx.unwrap()`), a
construction-time defect rather than a runtime error. -/
theorem events_rx_injection (opts : WorkerContextInitOpts) (host : Host)
    (hconf : opts.conf = WorkerRuntimeOpts.EventsWorker) :
    (∀ r, opts.events_rx = some r →
      bundlingOk opts host = true → certStoreOk host = true →
      exceptOk host.bootstrapResult = true →
      (DenoRuntime.new opts host).isFatal = false ∧
      ∃ pre post,
        (DenoRuntime.new opts host).trace =
          pre ++ NewEvent.putEventsRx :: post ∧
        (∀ u2, NewEvent.loadMainModule u2 ∉ pre) ∧
        NewEvent.loadMainModule (mainModuleUrl host.cwd opts) ∈ post) ∧
    (opts.events_rx = none →
      bundlingOk opts host = true → certStoreOk host = true →
      exceptOk host.bootstrapResult = true →
      DenoRuntime.new opts host =
        NewOutcome.fatal "called Option::unwrap on a None value"
          (eszipEvents host.cwd opts ++
            [NewEvent.jsRuntimeNew (createParams opts.conf),
             NewEvent.execBootstrap
               (bootstrapArgs host.target opts.conf host.gitVTag)])) := by
  constructor
  · intro r hrx hb hcert hboot
    obtain ⟨htr, hfat⟩ := new_reaches_load opts host hb hcert hboot
      (Or.inr (by rw [hrx]; rfl))
    refine ⟨hfat,
      eszipEvents host.cwd opts ++
        [NewEvent.jsRuntimeNew (createParams opts.conf),
         NewEvent.execBootstrap (bootstrapArgs host.target opts.conf host.gitVTag)],
      NewEvent.putEnvVars (injectedEnvVars opts) ::
        [NewEvent.loadMainModule (mainModuleUrl host.cwd opts)],
      ?_, ?_, ?_⟩
    · rw [htr, opStatePuts_events opts hconf]
      simp [List.append_assoc]
    · intro u2 hmem
      rcases List.mem_append.mp hmem with hm | hm
      · obtain ⟨a, b, c, hx⟩ := eszipEvents_mem _ _ _ hm
        cases hx
      · simp at hm
    · simp
  · intro hrx hb hcert hboot
    cases hpop : populateRootCertStore (parseCaStores host.denoTlsCaStoreEnv)
        host.nativeCerts with
    | error err => simp [certStoreOk, hpop, exceptOk] at hcert
    | ok v =>
        cases hbres : host.bootstrapResult with
        | error e => simp [hbres, exceptOk] at hboot
        | ok uu =>
            cases hme : opts.maybe_eszip with
            | some p =>
                simp [DenoRuntime.new, hme, hpop, hbres, hrx, hconf,
                  WorkerRuntimeOpts.is_events_worker]
            | none =>
                have hbr : exceptOk host.bundleResult = true := by
                  simp [bundlingOk, hme] at hb
                  exact hb
                simp [DenoRuntime.new, hme, hpop, hbres, hrx, hbr, hconf,
                  WorkerRuntimeOpts.is_events_worker]

theorem events_rx_injection_witness :
    (DenoRuntime.new sampleOptsEvents sampleHost).isFatal = false ∧
    DenoRuntime.new sampleOptsEventsNoRx sampleHost =
      NewOutcome.fatal "called Option::unwrap on a None value"
        (eszipEvents sampleHost.cwd sampleOptsEventsNoRx ++
          [NewEvent.jsRuntimeNew (createParams sampleOptsEventsNoRx.conf),
           NewEvent.execBootstrap (bootstrapArgs sampleHost.target
             sampleOptsEventsNoRx.conf sampleHost.gitVTag)]) :=
  ⟨((events_rx_injection sampleOptsEvents sampleHost rfl).1 7 rfl
      (by decide) (by decide) (by decide)).1,
   (events_rx_injection sampleOptsEventsNoRx sampleHost rfl).2 rfl
      (by decide) (by decide) (by decide)⟩

lemma populateFrom_ok_iff (native : Except String (List String)) :
    ∀ (stores : List String) (roots : List String),
      exceptOk (populateFrom roots stores native) = true ↔
      ((∀ s ∈ stores, s = "mozilla" ∨ s = "system") ∧
       ("system" ∈ stores → exceptOk native = true)) := by
  intro stores
  induction stores with
  | nil => intro roots; simp [populateFrom, exceptOk]
  | cons s rest ih =>
      intro roots
      by_cases hm : s = "mozilla"
      · subst hm
        simp [populateFrom, addCaStore, ih]
      · by_cases hs : s = "system"
        · subst hs
          cases hnat : native with
          | ok certs =>
              have ih2 := ih (roots ++ certs)
              rw [hnat] at ih2
              simp only [populateFrom, addCaStore]
              rw [ih2]
              simp [exceptOk]
          | error e =>
              simp [populateFrom, addCaStore, exceptOk]
        · simp [populateFrom, addCaStore, hm, hs, exceptOk]

lemma new_ok_certStoreOk (opts : WorkerContextInitOpts) (host : Host)
    (h : (DenoRuntime.new opts host).isOk = true) : certStoreOk host = true := by
  unfold DenoRuntime.new at h
  split at h
  · simp [NewOutcome.isOk] at h
  · split at h
    · simp [NewOutcome.isOk] at h
    · simp [NewOutcome.isOk] at h
    · next v heq => simp [certStoreOk, heq, exceptOk]

/-- C6: trust-store selection — the unset default is exactly `["mozilla"]`;
"mozilla" loads the bundled default store, "system" adds the
platform-native certificates, any other name fails with the unknown-store
error; populating the store succeeds precisely when every listed name is
"mozilla" or "system" and, whenever "system" is listed, the platform
certificate enumeration succeeded; and a successful construction implies
the cert store was built. -/
theorem trust_store_selection :
    parseCaStores none = ["mozilla"] ∧
    (∀ roots native, addCaStore roots "mozilla" native =
        Except.ok createDefaultRootCertStore) ∧
    (∀ roots certs, addCaStore roots "system" (Except.ok certs) =
        Except.ok (roots ++ certs)) ∧
    (∀ roots name native, name ≠ "mozilla" → name ≠ "system" →
      addCaStore roots name native =
        Except.error (CertStoreError.unknownStore name)) ∧
    (∀ stores native,
      exceptOk (populateRootCertStore stores native) = true ↔
        ((∀ s ∈ stores, s = "mozilla" ∨ s = "system") ∧
         ("system" ∈ stores → exceptOk native = true))) ∧
    (∀ (opts : WorkerContextInitOpts) (host : Host),
      (DenoRuntime.new opts host).isOk = true → certStoreOk host = true) := by
  refine ⟨rfl, ?_, ?_, ?_, ?_, new_ok_certStoreOk⟩
  · intro roots native; rfl
  · intro roots certs; rfl
  · intro roots name native hm hs
    simp [addCaStore, hm, hs]
  · intro stores native
    exact populateFrom_ok_iff native stores []

theorem trust_store_selection_witness :
    addCaStore [] "mozilla" (Except.ok []) = Except.ok createDefaultRootCertStore ∧
    addCaStore ["a"] "system" (Except.ok ["b"]) = Except.ok ["a", "b"] ∧
    addCaStore [] "evil" (Except.ok []) =
      Except.error (CertStoreError.unknownStore "evil") ∧
    exceptOk (populateRootCertStore ["mozilla", "system"] (Except.ok [])) = true ∧
    certStoreOk sampleHost = true :=
  ⟨trust_store_selection.2.1 [] (Except.ok []),
   trust_store_selection.2.2.1 ["a"] ["b"],
   trust_store_selection.2.2.2.1 [] "evil" (Except.ok []) (by decide) (by decide),
   (trust_store_selection.2.2.2.2.1 ["mozilla", "system"] (Except.ok [])).mpr
     (by decide),
   trust_store_selection.2.2.2.2.2 sampleOptsEszip sampleHost rfl⟩
